import Mathlib

/-!
Verification development for the InfluxDB CRUD gateway repository.

The repository has two verifiable layers:

1. The Time-Series CRUD Gateway: a stateless Lambda handler that routes an
   inbound HTTP-shaped event to one of five operations (health, create, read,
   update, delete) and translates each into calls against the time-series
   database. The Python handler source (lambda/index.py, referenced by the
   CDK code as lambda.Code.fromAsset) is not part of the repository snapshot;
   the `Gw` namespace models it from the specification, faithful to the
   routing table, validation rules, operation behaviors and error taxonomy
   stated there.

2. The CDK infrastructure configuration (security groups, Lambda function
   configuration), which is present in the snapshot and is embedded as
   concrete configuration data in the `Infra` namespace.
-/

namespace Gw

/-- Modelled from the spec: the value of a single field of a DataPoint,
numeric or string (section 3, DATA MODEL). -/
inductive FieldValue where
  | num (v : Int)
  | str (v : String)
deriving Repr, DecidableEq

/-- Modelled from the spec: the only domain entity. `measurement` is a
required non-empty string, `tags` a string-to-string mapping with zero or
more entries, `fields` a mapping with one or more entries (section 3). -/
structure DataPoint where
  measurement : String
  tags : List (String × String)
  fields : List (String × FieldValue)
deriving Repr, DecidableEq

/-- Modelled from the spec: the inbound request body as seen by the handler.
`malformed` stands for a body that is not valid JSON; `json` carries the
parsed object, where a missing `measurement` or `fields` key is `none` and a
present-but-empty one is `some` of the empty value (sections 4.1, 7). -/
inductive ReqBody where
  | malformed
  | json (measurement : Option String) (tags : List (String × String))
      (fields : Option (List (String × FieldValue)))
deriving Repr, DecidableEq

/-- Modelled from the spec: the error taxonomy of section 7. Inbound and
outbound parse failures map to different statuses, so they are distinct
constructors. -/
inductive GwError where
  | validation (msg : String)
  | parseInbound (msg : String)
  | parseUpstream (msg : String)
  | configuration (msg : String)
  | connectivity (msg : String)
  | upstream (status : Nat) (body : String)
  | notFound
deriving Repr, DecidableEq

/-- Modelled from the spec: HTTP status for each error of the taxonomy
(section 7): ValidationError 400, inbound ParseError 400, outbound
ParseError 502, ConfigurationError 500, ConnectivityError 502,
UpstreamError 502, routing NotFoundError 404. -/
def GwError.status : GwError → Nat
  | .validation _ => 400
  | .parseInbound _ => 400
  | .parseUpstream _ => 502
  | .configuration _ => 500
  | .connectivity _ => 502
  | .upstream _ _ => 502
  | .notFound => 404

/-- Modelled from the spec: the caller-visible error message; an upstream
error echoes the upstream status and body for diagnosability (section 7). -/
def GwError.message : GwError → String
  | .validation msg => msg
  | .parseInbound msg => msg
  | .parseUpstream msg => msg
  | .configuration msg => msg
  | .connectivity msg => msg
  | .upstream status body => "InfluxDB error: " ++ toString status ++ " " ++ body
  | .notFound => "Not found"

/-- A flat record produced by parsing the query engine tabular response:
time, measurement, field name and value, and all tags, as key-value pairs
(spec section 4.1, read operation). -/
abbrev Record := List (String × String)

/-- A JSON value appearing in a response body: a string, or the array of
records under the `data` key. -/
inductive JsonValue where
  | s (v : String)
  | records (rs : List Record)
deriving Repr, DecidableEq

/-- An HTTP-shaped response: status code plus a JSON object body given as
key-value entries. -/
structure Response where
  status : Nat
  body : List (String × JsonValue)
deriving Repr, DecidableEq

/-- Whether the JSON object `body` contains key `k`. -/
def hasKey (body : List (String × JsonValue)) (k : String) : Bool :=
  body.any (fun e => e.1 = k)

/-- Modelled from the spec: every error is mapped to its HTTP status plus a
JSON body with a single `error` key (section 7, propagation policy). -/
def errorResponse (e : GwError) : Response :=
  { status := e.status, body := [("error", JsonValue.s e.message)] }

/-- Modelled from the spec: one outbound call against the time-series
database: a line-protocol write of a point, a range query, or a
range-plus-predicate delete selecting by the identifier tag (section 6). -/
inductive DbCall where
  | write (p : DataPoint)
  | query
  | delete (id : String)
deriving Repr, DecidableEq

/-- Outcome of one outbound call as the backend environment determines it:
success, a completed call with a non-2xx status, or a connection
failure/timeout. -/
inductive CallOutcome where
  | ok
  | upstreamErr (status : Nat) (body : String)
  | connFail
deriving Repr, DecidableEq

/-- Modelled from the spec: the environment the handler runs against.
`configOk` is whether credential/URL resolution succeeds (section 6,
configuration surface); the `Res` fields give the outcome the database
would return for each kind of call; `queryRows` is the parse result of the
tabular query response (`none` means a malformed response, an outbound
ParseError); `deleteMatched` is how many stored points a delete matches —
it does not influence the database reply to a delete (section 4.1). -/
structure Backend where
  configOk : Bool
  writeRes : CallOutcome
  queryRes : CallOutcome
  queryRows : Option (List Record)
  deleteRes : CallOutcome
  deleteMatched : Nat
deriving Repr, DecidableEq

/-- Modelled from the spec: an inbound HTTP-shaped event. The path is
represented by its slash-separated segments, so the routing patterns
/health, /data and /data/id of section 4.1 correspond to the segment lists
[health], [data] and [data, id]. `now` is the current UTC instant supplied
by the runtime, used only by the health operation. -/
structure Request where
  method : String
  path : List String
  body : ReqBody
  now : String
deriving Repr, DecidableEq

/-- Modelled from the spec: the five operations plus not-found, the target
of the routing table (section 4.1). -/
inductive Route where
  | health
  | create
  | read
  | update (id : String)
  | delete (id : String)
  | notFound
deriving Repr, DecidableEq

/-- Modelled from the spec: the routing table of section 4.1. GET /health,
POST /data, GET /data, PUT /data/id, DELETE /data/id; anything else is
not-found. -/
def route (method : String) (path : List String) : Route :=
  match path with
  | [seg] =>
    if seg = "health" then
      (if method = "GET" then Route.health else Route.notFound)
    else if seg = "data" then
      (if method = "POST" then Route.create
       else if method = "GET" then Route.read
       else Route.notFound)
    else Route.notFound
  | [seg, id] =>
    if seg = "data" then
      (if method = "PUT" then Route.update id
       else if method = "DELETE" then Route.delete id
       else Route.notFound)
    else Route.notFound
  | _ => Route.notFound

/-- Modelled from the spec: body validation for create and update
(section 4.1): malformed JSON is an inbound ParseError; a missing or empty
`measurement`, or missing or empty `fields`, is a ValidationError; otherwise
the body yields a DataPoint. -/
def validate : ReqBody → Except GwError DataPoint
  | .malformed => Except.error (GwError.parseInbound "Invalid JSON in request body")
  | .json m tags f =>
    match m with
    | none => Except.error (GwError.validation "measurement is required")
    | some meas =>
      if meas = "" then Except.error (GwError.validation "measurement is required")
      else
        match f with
        | none => Except.error (GwError.validation "fields are required")
        | some fs =>
          if fs = [] then Except.error (GwError.validation "fields are required")
          else Except.ok { measurement := meas, tags := tags, fields := fs }

/-- Maps the outcome of an outbound call to the error it surfaces, when it
is not a success. -/
def callError : CallOutcome → Option GwError
  | .ok => none
  | .upstreamErr status body => some (GwError.upstream status body)
  | .connFail => some (GwError.connectivity "InfluxDB unreachable")

/-- Modelled from the spec: the health operation — no side effects, no
database probe; returns 200 with status and timestamp (section 4.1). -/
def runHealth (now : String) : Response × List DbCall :=
  ({ status := 200,
     body := [("status", JsonValue.s "healthy"), ("timestamp", JsonValue.s now)] }, [])

/-- Modelled from the spec: the create operation — validate, then issue a
single write call; 201 on success, the mapped error otherwise
(section 4.1). Configuration is resolved before the first outbound call
(section 6). -/
def runCreate (b : Backend) (body : ReqBody) : Response × List DbCall :=
  match validate body with
  | .error e => (errorResponse e, [])
  | .ok p =>
    if b.configOk then
      match callError b.writeRes with
      | none =>
        ({ status := 201, body := [("message", JsonValue.s "Data created successfully")] },
         [DbCall.write p])
      | some e => (errorResponse e, [DbCall.write p])
    else (errorResponse (GwError.configuration "Unable to resolve InfluxDB credentials"), [])

/-- Modelled from the spec: the read operation — a single range query;
200 with the parsed records on success (an empty result set included), an
outbound ParseError on a malformed tabular response, the mapped error
otherwise (section 4.1). -/
def runRead (b : Backend) : Response × List DbCall :=
  if b.configOk then
    match callError b.queryRes with
    | none =>
      match b.queryRows with
      | some rows => ({ status := 200, body := [("data", JsonValue.records rows)] }, [DbCall.query])
      | none =>
        (errorResponse (GwError.parseUpstream "Malformed query response from InfluxDB"),
         [DbCall.query])
    | some e => (errorResponse e, [DbCall.query])
  else (errorResponse (GwError.configuration "Unable to resolve InfluxDB credentials"), [])

/-- Modelled from the spec: the update operation — validate, write the new
DataPoint exactly as in create, then issue a cleanup delete for prior
points matching the identifier, in that order. A delete failure after a
successful write is logged, not surfaced: the operation still reports
success, returning 200. A write failure is surfaced as in create, without
issuing the cleanup delete (sections 4.1 and 7). -/
def runUpdate (b : Backend) (id : String) (body : ReqBody) : Response × List DbCall :=
  match validate body with
  | .error e => (errorResponse e, [])
  | .ok p =>
    if b.configOk then
      match callError b.writeRes with
      | none =>
        ({ status := 200,
           body := [("message", JsonValue.s ("Data " ++ id ++ " updated successfully"))] },
         [DbCall.write p, DbCall.delete id])
      | some e => (errorResponse e, [DbCall.write p])
    else (errorResponse (GwError.configuration "Unable to resolve InfluxDB credentials"), [])

/-- Modelled from the spec: the delete operation — a single predicate
delete; 200 with the success message whenever the database accepts the
delete, regardless of how many points matched (zero included); the mapped
error otherwise (section 4.1). -/
def runDelete (b : Backend) (id : String) : Response × List DbCall :=
  if b.configOk then
    match callError b.deleteRes with
    | none =>
      ({ status := 200,
         body := [("message", JsonValue.s ("Data " ++ id ++ " deleted successfully"))] },
       [DbCall.delete id])
    | some e => (errorResponse e, [DbCall.delete id])
  else (errorResponse (GwError.configuration "Unable to resolve InfluxDB credentials"), [])

/-- Modelled from the spec: the top-level dispatch point — route by method
and path, run the operation, and map every error to a status plus a JSON
error body; an unmatched combination yields 404 with the error Not found
(sections 4.1 and 7). The second component records the outbound database
calls issued, in order. -/
def handle (b : Backend) (req : Request) : Response × List DbCall :=
  match route req.method req.path with
  | .health => runHealth req.now
  | .create => runCreate b req.body
  | .read => runRead b
  | .update id => runUpdate b id req.body
  | .delete id => runDelete b id
  | .notFound => (errorResponse GwError.notFound, [])

end Gw

namespace Infra

/-- A peer a security-group rule refers to: any IPv4 address, or another
security group named by its construct id. -/
inductive SgPeer where
  | anyIpv4
  | securityGroup (constructId : String)
deriving Repr, DecidableEq

/-- One security-group rule: peer, IP protocol, port range and
description, as the CDK addIngressRule calls state them. -/
structure SgRule where
  peer : SgPeer
  protocol : String
  fromPort : Nat
  toPort : Nat
  description : String
deriving Repr, DecidableEq

/-- A security group as the CDK code configures it: description, the
allowAllOutbound flag, and the list of ingress rules added to it, in
order. -/
structure SecurityGroupSpec where
  description : String
  allowAllOutbound : Bool
  ingressRules : List SgRule
deriving Repr, DecidableEq

/-- The three security groups the stack creates. -/
structure SecurityGroups where
  albSecurityGroup : SecurityGroupSpec
  lambdaSecurityGroup : SecurityGroupSpec
  influxDbSecurityGroup : SecurityGroupSpec
deriving Repr, DecidableEq

/-- Embedding of SecurityGroupsConstruct (lib/constructs/security-groups.ts):
three groups — ALB with one ingress rule for TCP 80 from any IPv4, Lambda
with none, InfluxDB with exactly one ingress rule for TCP 8086 whose source
is the Lambda security group. The construct takes only the VPC as a prop
and the VPC does not influence any rule, so the produced groups are the
same in every synthesized stack. -/
def securityGroupsConstruct : SecurityGroups where
  albSecurityGroup :=
    { description := "Security group for Application Load Balancer"
      allowAllOutbound := true
      ingressRules :=
        [{ peer := SgPeer.anyIpv4, protocol := "tcp", fromPort := 80, toPort := 80,
           description := "Allow HTTP traffic from anywhere" }] }
  lambdaSecurityGroup :=
    { description := "Security group for Lambda CRUD service"
      allowAllOutbound := true
      ingressRules := [] }
  influxDbSecurityGroup :=
    { description := "Security group for InfluxDB EC2 instance"
      allowAllOutbound := true
      ingressRules :=
        [{ peer := SgPeer.securityGroup "LambdaSecurityGroup", protocol := "tcp",
           fromPort := 8086, toPort := 8086,
           description := "Allow InfluxDB access from Lambda CRUD service" }] }

/-- Embedding of the inline security-group section of the monolithic
InfluxDbCrudStack (lib/influxdb-crud-stack.ts, first variant, lines 39 to
71): the same three groups and the same addIngressRule calls as the
construct version. -/
def monolithicStackSecurityGroups : SecurityGroups where
  albSecurityGroup :=
    { description := "Security group for Application Load Balancer"
      allowAllOutbound := true
      ingressRules :=
        [{ peer := SgPeer.anyIpv4, protocol := "tcp", fromPort := 80, toPort := 80,
           description := "Allow HTTP traffic from anywhere" }] }
  lambdaSecurityGroup :=
    { description := "Security group for Lambda CRUD service"
      allowAllOutbound := true
      ingressRules := [] }
  influxDbSecurityGroup :=
    { description := "Security group for InfluxDB EC2 instance"
      allowAllOutbound := true
      ingressRules :=
        [{ peer := SgPeer.securityGroup "LambdaSecurityGroup", protocol := "tcp",
           fromPort := 8086, toPort := 8086,
           description := "Allow InfluxDB access from Lambda CRUD service" }] }

/-- A Lambda function configuration as the CDK code states it: runtime,
handler entry point, code asset directory, timeout in seconds, and the
environment variable map. -/
structure LambdaFunctionSpec where
  runtime : String
  handlerEntry : String
  codeAsset : String
  timeoutSeconds : Nat
  environment : List (String × String)
deriving Repr, DecidableEq

/-- Looks a key up in an environment variable map. -/
def lookupEnv (env : List (String × String)) (k : String) : Option String :=
  (env.find? (fun e => e.1 = k)).map Prod.snd

/-- Embedding of the CrudLambdaFunction of the monolithic InfluxDbCrudStack
(lib/influxdb-crud-stack.ts, first variant, lines 184 to 202): Python 3.11,
handler index.handler, 30-second timeout, and an environment holding the
InfluxDB URL built from the instance private IP plus the literal token,
organization and bucket values. -/
def monolithicCrudLambda (instancePrivateIp : String) : LambdaFunctionSpec where
  runtime := "python3.11"
  handlerEntry := "index.handler"
  codeAsset := "lambda"
  timeoutSeconds := 30
  environment :=
    [("INFLUXDB_URL", "http://" ++ instancePrivateIp ++ ":8086"),
     ("INFLUXDB_TOKEN", "my-super-secret-auth-token"),
     ("INFLUXDB_ORG", "myorg"),
     ("INFLUXDB_BUCKET", "mybucket")]

/-- Embedding of the Lambda function of LambdaCrudApiConstruct
(lib/constructs/lambda-crud-api.ts, lines 87 to 105), for contrast with the
monolithic stack: the construct-based stack passes SSM parameter names, not
the credential values, in the environment. -/
def constructCrudLambda (instancePrivateIp tokenParam orgParam bucketParam : String) :
    LambdaFunctionSpec where
  runtime := "python3.11"
  handlerEntry := "index.handler"
  codeAsset := "lambda"
  timeoutSeconds := 30
  environment :=
    [("INFLUXDB_URL", "http://" ++ instancePrivateIp ++ ":8086"),
     ("INFLUXDB_TOKEN_PARAM", tokenParam),
     ("INFLUXDB_ORG_PARAM", orgParam),
     ("INFLUXDB_BUCKET_PARAM", bucketParam)]

end Infra

/-- A concrete backend in which every outbound call succeeds and the query
parses to an empty result set, used as the sample environment of the
witnesses. -/
def sampleBackend : Gw.Backend :=
  { configOk := true, writeRes := .ok, queryRes := .ok, queryRows := some [],
    deleteRes := .ok, deleteMatched := 0 }

/-- The response well-formedness contract of spec section 7: a non-empty
JSON object body; an error key whenever the status signals failure (400 and
above); and, on a success status, a message key, a data key, or — for the
health operation — a status key. -/
def Gw.wellFormedResponse (r : Gw.Response) : Prop :=
  r.body ≠ [] ∧
  (400 ≤ r.status → Gw.hasKey r.body "error" = true) ∧
  (r.status < 400 →
    Gw.hasKey r.body "message" = true ∨ Gw.hasKey r.body "data" = true ∨
    Gw.hasKey r.body "status" = true)

/-- C1: The gateway handler routes every inbound request by method and path
according to the routing table (GET /health to health, POST /data to create,
GET /data to read, PUT /data/id to update, DELETE /data/id to delete), and
for every method/path combination not in that table it returns HTTP 404
with a body whose single entry is the key error mapped to Not found. -/
theorem gateway_routing_table (b : Gw.Backend) (req : Gw.Request) :
    (Gw.route req.method req.path = Gw.Route.notFound ↔
      ¬ ((req.method = "GET" ∧ req.path = ["health"]) ∨
         (req.method = "POST" ∧ req.path = ["data"]) ∨
         (req.method = "GET" ∧ req.path = ["data"]) ∨
         (∃ id, req.method = "PUT" ∧ req.path = ["data", id]) ∨
         (∃ id, req.method = "DELETE" ∧ req.path = ["data", id]))) ∧
    (Gw.route req.method req.path = Gw.Route.notFound →
      Gw.handle b req =
        ({ status := 404, body := [("error", Gw.JsonValue.s "Not found")] }, [])) ∧
    (req.method = "GET" ∧ req.path = ["health"] → Gw.handle b req = Gw.runHealth req.now) ∧
    (req.method = "POST" ∧ req.path = ["data"] → Gw.handle b req = Gw.runCreate b req.body) ∧
    (req.method = "GET" ∧ req.path = ["data"] → Gw.handle b req = Gw.runRead b) ∧
    (∀ id, req.method = "PUT" ∧ req.path = ["data", id] →
      Gw.handle b req = Gw.runUpdate b id req.body) ∧
    (∀ id, req.method = "DELETE" ∧ req.path = ["data", id] →
      Gw.handle b req = Gw.runDelete b id) := by
  obtain ⟨m, p, body, now⟩ := req
  rcases p with _ | ⟨a, _ | ⟨c, _ | _⟩⟩ <;>
    simp only [Gw.route, Gw.handle, Gw.errorResponse, Gw.GwError.status, Gw.GwError.message] <;>
    (try split_ifs) <;>
    simp_all

/-- Witness for C1: a concrete unmatched request gets the 404 response. -/
theorem gateway_routing_table_witness :
    Gw.handle ⟨true, .ok, .ok, some [], .ok, 0⟩
        ⟨"GET", ["invalid-endpoint"], Gw.ReqBody.malformed, ""⟩ =
      ({ status := 404, body := [("error", Gw.JsonValue.s "Not found")] }, []) :=
  (gateway_routing_table ⟨true, .ok, .ok, some [], .ok, 0⟩
    ⟨"GET", ["invalid-endpoint"], Gw.ReqBody.malformed, ""⟩).2.1 rfl

/-- C2: For every valid create request (POST /data with a non-empty
measurement and at least one fields entry), the handler issues exactly one
outbound call, a write of the DataPoint, and when that write succeeds it
returns HTTP 201 with the message Data created successfully. Resolvable
configuration is assumed, since the spec maps a resolution failure to a
distinct 500 before any outbound call is made. -/
theorem create_valid_single_write (b : Gw.Backend) (meas : String)
    (tags : List (String × String)) (fields : List (String × Gw.FieldValue)) (now : String)
    (hm : meas ≠ "") (hf : fields ≠ []) (hc : b.configOk = true) :
    (Gw.handle b ⟨"POST", ["data"], Gw.ReqBody.json (some meas) tags (some fields), now⟩).2 =
        [Gw.DbCall.write ⟨meas, tags, fields⟩] ∧
      (b.writeRes = Gw.CallOutcome.ok →
        Gw.handle b ⟨"POST", ["data"], Gw.ReqBody.json (some meas) tags (some fields), now⟩ =
          ({ status := 201, body := [("message", Gw.JsonValue.s "Data created successfully")] },
           [Gw.DbCall.write ⟨meas, tags, fields⟩])) := by
  have hroute : Gw.route "POST" ["data"] = Gw.Route.create := rfl
  constructor
  · cases hw : b.writeRes <;>
      simp [Gw.handle, hroute, Gw.runCreate, Gw.validate, Gw.callError, hm, hf, hc, hw]
  · intro hw
    simp [Gw.handle, hroute, Gw.runCreate, Gw.validate, Gw.callError, hm, hf, hc, hw]

/-- Witness for C2: the first example scenario of the spec, a valid create
of a temperature point, yields the single write call and the 201 response. -/
theorem create_valid_single_write_witness :
    (Gw.handle sampleBackend
        ⟨"POST", ["data"],
         Gw.ReqBody.json (some "temperature") [("sensor_id", "s1")]
           (some [("value", Gw.FieldValue.num 22)]), ""⟩).2 =
        [Gw.DbCall.write ⟨"temperature", [("sensor_id", "s1")], [("value", Gw.FieldValue.num 22)]⟩] ∧
      (sampleBackend.writeRes = Gw.CallOutcome.ok →
        Gw.handle sampleBackend
            ⟨"POST", ["data"],
             Gw.ReqBody.json (some "temperature") [("sensor_id", "s1")]
               (some [("value", Gw.FieldValue.num 22)]), ""⟩ =
          ({ status := 201, body := [("message", Gw.JsonValue.s "Data created successfully")] },
           [Gw.DbCall.write
              ⟨"temperature", [("sensor_id", "s1")], [("value", Gw.FieldValue.num 22)]⟩])) :=
  create_valid_single_write sampleBackend "temperature" [("sensor_id", "s1")]
    [("value", Gw.FieldValue.num 22)] "" (by decide) (by decide) rfl

/-- Validation rejects every body with a missing or empty measurement, or
missing or empty fields, with a ValidationError. -/
theorem validate_invalid_body (m : Option String) (tags : List (String × String))
    (f : Option (List (String × Gw.FieldValue)))
    (hbad : m = none ∨ m = some "" ∨ f = none ∨ f = some []) :
    ∃ msg, Gw.validate (Gw.ReqBody.json m tags f) =
      Except.error (Gw.GwError.validation msg) := by
  rcases m with _ | meas
  · exact ⟨"measurement is required", rfl⟩
  · by_cases hm : meas = ""
    · subst hm
      exact ⟨"measurement is required", rfl⟩
    · rcases f with _ | fs
      · exact ⟨"fields are required", by simp [Gw.validate, hm]⟩
      · have hfs : fs = [] := by
          rcases hbad with h | h | h | h <;> simp_all
        subst hfs
        exact ⟨"fields are required", by simp [Gw.validate, hm]⟩

/-- C3: For every create request whose body is missing measurement or has
an empty measurement, or is missing fields or has empty fields, the handler
returns HTTP 400 and issues zero outbound calls, against every backend. -/
theorem create_invalid_rejected (b : Gw.Backend) (m : Option String)
    (tags : List (String × String)) (f : Option (List (String × Gw.FieldValue))) (now : String)
    (hbad : m = none ∨ m = some "" ∨ f = none ∨ f = some []) :
    (Gw.handle b ⟨"POST", ["data"], Gw.ReqBody.json m tags f, now⟩).1.status = 400 ∧
      (Gw.handle b ⟨"POST", ["data"], Gw.ReqBody.json m tags f, now⟩).2 = [] := by
  have hroute : Gw.route "POST" ["data"] = Gw.Route.create := rfl
  obtain ⟨msg, hv⟩ := validate_invalid_body m tags f hbad
  simp [Gw.handle, hroute, Gw.runCreate, hv, Gw.errorResponse, Gw.GwError.status]

/-- Witness for C3: the second example scenario of the spec, a create with
no measurement, gets 400 and no outbound call. -/
theorem create_invalid_rejected_witness :
    (Gw.handle sampleBackend
        ⟨"POST", ["data"], Gw.ReqBody.json none [] (some []), ""⟩).1.status = 400 ∧
      (Gw.handle sampleBackend
        ⟨"POST", ["data"], Gw.ReqBody.json none [] (some []), ""⟩).2 = [] :=
  create_invalid_rejected sampleBackend none [] (some []) "" (Or.inl rfl)

/-- C4: For every update invocation (PUT /data/id with a valid body) whose
primary write succeeds, the handler issues exactly two outbound calls, the
write of the new DataPoint first and the delete of prior points matching
the identifier second, and returns HTTP 200 with the message Data id
updated successfully — whatever the outcome of the cleanup delete. -/
theorem update_write_then_delete (b : Gw.Backend) (id meas : String)
    (tags : List (String × String)) (fields : List (String × Gw.FieldValue)) (now : String)
    (hm : meas ≠ "") (hf : fields ≠ []) (hc : b.configOk = true)
    (hw : b.writeRes = Gw.CallOutcome.ok) :
    Gw.handle b ⟨"PUT", ["data", id], Gw.ReqBody.json (some meas) tags (some fields), now⟩ =
      ({ status := 200,
         body := [("message", Gw.JsonValue.s ("Data " ++ id ++ " updated successfully"))] },
       [Gw.DbCall.write ⟨meas, tags, fields⟩, Gw.DbCall.delete id]) := by
  have hroute : Gw.route "PUT" ["data", id] = Gw.Route.update id := rfl
  simp [Gw.handle, hroute, Gw.runUpdate, Gw.validate, Gw.callError, hm, hf, hc, hw]

/-- Witness for C4: the fourth example scenario of the spec, an update of
sensor s1, issues write then delete and returns the 200 update message,
here with a backend whose cleanup delete would fail. -/
theorem update_write_then_delete_witness :
    Gw.handle
        { configOk := true, writeRes := .ok, queryRes := .ok, queryRows := some [],
          deleteRes := .connFail, deleteMatched := 1 }
        ⟨"PUT", ["data", "s1"],
         Gw.ReqBody.json (some "temperature") [("sensor_id", "s1")]
           (some [("value", Gw.FieldValue.num 25)]), ""⟩ =
      ({ status := 200,
         body := [("message", Gw.JsonValue.s ("Data " ++ "s1" ++ " updated successfully"))] },
       [Gw.DbCall.write ⟨"temperature", [("sensor_id", "s1")], [("value", Gw.FieldValue.num 25)]⟩,
        Gw.DbCall.delete "s1"]) :=
  update_write_then_delete
    { configOk := true, writeRes := .ok, queryRes := .ok, queryRows := some [],
      deleteRes := .connFail, deleteMatched := 1 }
    "s1" "temperature" [("sensor_id", "s1")] [("value", Gw.FieldValue.num 25)] ""
    (by decide) (by decide) rfl rfl

/-- C5: For every update invocation with a valid body and resolvable
configuration, the operation reports success (HTTP 200) if and only if the
primary write succeeded; in particular, when the write succeeds and the
cleanup delete fails, the handler still returns the full 200 success
response, surfacing no delete error. -/
theorem update_partial_failure_policy (b : Gw.Backend) (id meas : String)
    (tags : List (String × String)) (fields : List (String × Gw.FieldValue)) (now : String)
    (hm : meas ≠ "") (hf : fields ≠ []) (hc : b.configOk = true) :
    ((Gw.handle b
        ⟨"PUT", ["data", id], Gw.ReqBody.json (some meas) tags (some fields), now⟩).1.status = 200
      ↔ b.writeRes = Gw.CallOutcome.ok) ∧
    (b.writeRes = Gw.CallOutcome.ok → b.deleteRes ≠ Gw.CallOutcome.ok →
      Gw.handle b ⟨"PUT", ["data", id], Gw.ReqBody.json (some meas) tags (some fields), now⟩ =
        ({ status := 200,
           body := [("message", Gw.JsonValue.s ("Data " ++ id ++ " updated successfully"))] },
         [Gw.DbCall.write ⟨meas, tags, fields⟩, Gw.DbCall.delete id])) := by
  have hroute : Gw.route "PUT" ["data", id] = Gw.Route.update id := rfl
  cases hw : b.writeRes <;>
    simp [Gw.handle, hroute, Gw.runUpdate, Gw.validate, Gw.callError, Gw.errorResponse,
      Gw.GwError.status, hm, hf, hc, hw]

/-- Witness for C5: with a backend whose write succeeds and whose delete
times out, a concrete update still returns the full 200 success response. -/
theorem update_partial_failure_policy_witness :
    (((Gw.handle
        { configOk := true, writeRes := .ok, queryRes := .ok, queryRows := some [],
          deleteRes := .connFail, deleteMatched := 2 }
        ⟨"PUT", ["data", "s9"],
         Gw.ReqBody.json (some "temperature") [] (some [("value", Gw.FieldValue.num 7)]),
         ""⟩).1.status = 200) ↔
      ({ configOk := true, writeRes := .ok, queryRes := .ok, queryRows := some [],
         deleteRes := .connFail, deleteMatched := 2 } : Gw.Backend).writeRes =
        Gw.CallOutcome.ok) ∧
    Gw.handle
        { configOk := true, writeRes := .ok, queryRes := .ok, queryRows := some [],
          deleteRes := .connFail, deleteMatched := 2 }
        ⟨"PUT", ["data", "s9"],
         Gw.ReqBody.json (some "temperature") [] (some [("value", Gw.FieldValue.num 7)]), ""⟩ =
      ({ status := 200,
         body := [("message", Gw.JsonValue.s ("Data " ++ "s9" ++ " updated successfully"))] },
       [Gw.DbCall.write ⟨"temperature", [], [("value", Gw.FieldValue.num 7)]⟩,
        Gw.DbCall.delete "s9"]) :=
  have h := update_partial_failure_policy
    { configOk := true, writeRes := .ok, queryRes := .ok, queryRows := some [],
      deleteRes := .connFail, deleteMatched := 2 }
    "s9" "temperature" [] [("value", Gw.FieldValue.num 7)] "" (by decide) (by decide) rfl
  ⟨h.1, h.2 rfl (by decide)⟩

/-- C6: For every read request (GET /data) against a backend whose query
succeeds and parses, the handler returns HTTP 200 with the records under a
data key; with no matching stored points the response is HTTP 200 with an
empty data array, never an error response. -/
theorem read_returns_data (b : Gw.Backend) (rows : List Gw.Record) (body : Gw.ReqBody)
    (now : String) (hc : b.configOk = true) (hq : b.queryRes = Gw.CallOutcome.ok)
    (hr : b.queryRows = some rows) :
    Gw.handle b ⟨"GET", ["data"], body, now⟩ =
      ({ status := 200, body := [("data", Gw.JsonValue.records rows)] }, [Gw.DbCall.query]) := by
  have hroute : Gw.route "GET" ["data"] = Gw.Route.read := rfl
  simp [Gw.handle, hroute, Gw.runRead, Gw.callError, hc, hq, hr]

/-- Witness for C6: a read that matches zero stored points returns 200 with
an empty data array. -/
theorem read_returns_data_witness :
    Gw.handle sampleBackend ⟨"GET", ["data"], Gw.ReqBody.malformed, ""⟩ =
      ({ status := 200, body := [("data", Gw.JsonValue.records [])] }, [Gw.DbCall.query]) :=
  read_returns_data sampleBackend [] Gw.ReqBody.malformed "" rfl rfl rfl

/-- C7: Delete-by-identifier is idempotent: for every identifier and every
backend with resolvable configuration — whatever the number of stored
points the delete matches, zero included — the handler returns HTTP 200
with the message Data id deleted successfully whenever the database accepts
the delete, and its status is never 404 and never 500. -/
theorem delete_idempotent (b : Gw.Backend) (id : String) (body : Gw.ReqBody) (now : String)
    (hc : b.configOk = true) :
    (b.deleteRes = Gw.CallOutcome.ok →
      Gw.handle b ⟨"DELETE", ["data", id], body, now⟩ =
        ({ status := 200,
           body := [("message", Gw.JsonValue.s ("Data " ++ id ++ " deleted successfully"))] },
         [Gw.DbCall.delete id])) ∧
    (Gw.handle b ⟨"DELETE", ["data", id], body, now⟩).1.status ≠ 404 ∧
    (Gw.handle b ⟨"DELETE", ["data", id], body, now⟩).1.status ≠ 500 := by
  have hroute : Gw.route "DELETE" ["data", id] = Gw.Route.delete id := rfl
  cases hd : b.deleteRes <;>
    simp [Gw.handle, hroute, Gw.runDelete, Gw.callError, Gw.errorResponse,
      Gw.GwError.status, hc, hd]

/-- Witness for C7: deleting an identifier that matches zero stored points
(the sample backend has deleteMatched zero) still returns the 200 deletion
message. -/
theorem delete_idempotent_witness :
    Gw.handle sampleBackend ⟨"DELETE", ["data", "ghost"], Gw.ReqBody.malformed, ""⟩ =
      ({ status := 200,
         body := [("message", Gw.JsonValue.s ("Data " ++ "ghost" ++ " deleted successfully"))] },
       [Gw.DbCall.delete "ghost"]) :=
  (delete_idempotent sampleBackend "ghost" Gw.ReqBody.malformed "" rfl).1 rfl

/-- Every error response of the taxonomy is a non-empty JSON object with an
error key and an error status. -/
theorem errorResponse_wellFormed (e : Gw.GwError) :
    Gw.wellFormedResponse (Gw.errorResponse e) := by
  cases e <;>
    simp [Gw.wellFormedResponse, Gw.errorResponse, Gw.hasKey, Gw.GwError.status]

/-- The health response is a non-empty JSON object carrying a status key. -/
theorem runHealth_wellFormed (now : String) :
    Gw.wellFormedResponse (Gw.runHealth now).1 := by
  simp [Gw.runHealth, Gw.wellFormedResponse, Gw.hasKey]

/-- Every create response is well-formed. -/
theorem runCreate_wellFormed (b : Gw.Backend) (body : Gw.ReqBody) :
    Gw.wellFormedResponse (Gw.runCreate b body).1 := by
  unfold Gw.runCreate
  split
  · exact errorResponse_wellFormed _
  · split
    · split
      · simp [Gw.wellFormedResponse, Gw.hasKey]
      · exact errorResponse_wellFormed _
    · exact errorResponse_wellFormed _

/-- Every read response is well-formed. -/
theorem runRead_wellFormed (b : Gw.Backend) :
    Gw.wellFormedResponse (Gw.runRead b).1 := by
  unfold Gw.runRead
  split
  · split
    · split
      · simp [Gw.wellFormedResponse, Gw.hasKey]
      · exact errorResponse_wellFormed _
    · exact errorResponse_wellFormed _
  · exact errorResponse_wellFormed _

/-- Every update response is well-formed. -/
theorem runUpdate_wellFormed (b : Gw.Backend) (id : String) (body : Gw.ReqBody) :
    Gw.wellFormedResponse (Gw.runUpdate b id body).1 := by
  unfold Gw.runUpdate
  split
  · exact errorResponse_wellFormed _
  · split
    · split
      · simp [Gw.wellFormedResponse, Gw.hasKey]
      · exact errorResponse_wellFormed _
    · exact errorResponse_wellFormed _

/-- Every delete response is well-formed. -/
theorem runDelete_wellFormed (b : Gw.Backend) (id : String) :
    Gw.wellFormedResponse (Gw.runDelete b id).1 := by
  unfold Gw.runDelete
  split
  · split
    · simp [Gw.wellFormedResponse, Gw.hasKey]
    · exact errorResponse_wellFormed _
  · exact errorResponse_wellFormed _

/-- C8 counterexample: the health endpoint refutes the claim as stated. At
GET /health the handler returns a success (status 200) whose body — the
status and timestamp object — contains neither a message key nor a data
key, so not every success response carries a message or data key. -/
theorem success_without_message_or_data_key :
    (Gw.handle sampleBackend
        ⟨"GET", ["health"], Gw.ReqBody.malformed, "2026-01-01T00:00:00Z"⟩).1.status = 200 ∧
    Gw.hasKey (Gw.handle sampleBackend
        ⟨"GET", ["health"], Gw.ReqBody.malformed, "2026-01-01T00:00:00Z"⟩).1.body
      "message" = false ∧
    Gw.hasKey (Gw.handle sampleBackend
        ⟨"GET", ["health"], Gw.ReqBody.malformed, "2026-01-01T00:00:00Z"⟩).1.body
      "data" = false := by
  decide

/-- C8 amended: for every inbound request and every backend outcome, the
response is a non-empty JSON object; any failure response (status 400 and
above) carries an error key; any success response carries a message key, a
data key, or — for the health operation, whose body is the status and
timestamp object — a status key. The handler is a total function, so no
request produces an unhandled fault. -/
theorem responses_always_well_formed (b : Gw.Backend) (req : Gw.Request) :
    Gw.wellFormedResponse (Gw.handle b req).1 := by
  unfold Gw.handle
  split
  · exact runHealth_wellFormed _
  · exact runCreate_wellFormed _ _
  · exact runRead_wellFormed _
  · exact runUpdate_wellFormed _ _ _
  · exact runDelete_wellFormed _ _
  · exact errorResponse_wellFormed _

/-- Witness for C8 amended: a concrete 404 response carries the error key,
by the amended theorem applied at an unmatched request. -/
theorem responses_always_well_formed_witness :
    400 ≤ (Gw.handle sampleBackend ⟨"PATCH", ["data"], Gw.ReqBody.malformed, ""⟩).1.status ∧
      Gw.hasKey
        (Gw.handle sampleBackend ⟨"PATCH", ["data"], Gw.ReqBody.malformed, ""⟩).1.body
        "error" = true :=
  ⟨by decide,
   (responses_always_well_formed sampleBackend
      ⟨"PATCH", ["data"], Gw.ReqBody.malformed, ""⟩).2.1 (by decide)⟩

/-- C9: In every synthesized stack the InfluxDB security group has exactly
one ingress rule, permitting TCP port 8086 with the Lambda security group
as the sole source — in the SecurityGroupsConstruct used by the modular
stacks and in the inline security-group section of the monolithic stack
alike — so the database accepts network traffic only from the CRUD
Lambda. -/
theorem influxdb_sg_only_lambda_ingress :
    Infra.securityGroupsConstruct.influxDbSecurityGroup.ingressRules =
      [{ peer := Infra.SgPeer.securityGroup "LambdaSecurityGroup", protocol := "tcp",
         fromPort := 8086, toPort := 8086,
         description := "Allow InfluxDB access from Lambda CRUD service" }] ∧
    Infra.securityGroupsConstruct.influxDbSecurityGroup.ingressRules.length = 1 ∧
    Infra.monolithicStackSecurityGroups.influxDbSecurityGroup.ingressRules =
      [{ peer := Infra.SgPeer.securityGroup "LambdaSecurityGroup", protocol := "tcp",
         fromPort := 8086, toPort := 8086,
         description := "Allow InfluxDB access from Lambda CRUD service" }] ∧
    Infra.monolithicStackSecurityGroups.influxDbSecurityGroup.ingressRules.length = 1 :=
  ⟨rfl, rfl, rfl, rfl⟩

/-- C10: Constructing the monolithic InfluxDbCrudStack always gives the
CRUD Lambda the literal plaintext credentials — token
my-super-secret-auth-token, organization myorg, bucket mybucket — plus a
URL built from the instance private IP on port 8086, with a fixed
30-second timeout; the token value sits verbatim in the environment rather
than behind a secret-store reference. -/
theorem monolithic_lambda_plaintext_credentials (ip : String) :
    Infra.lookupEnv (Infra.monolithicCrudLambda ip).environment "INFLUXDB_TOKEN" =
        some "my-super-secret-auth-token" ∧
      Infra.lookupEnv (Infra.monolithicCrudLambda ip).environment "INFLUXDB_ORG" =
        some "myorg" ∧
      Infra.lookupEnv (Infra.monolithicCrudLambda ip).environment "INFLUXDB_BUCKET" =
        some "mybucket" ∧
      Infra.lookupEnv (Infra.monolithicCrudLambda ip).environment "INFLUXDB_URL" =
        some ("http://" ++ ip ++ ":8086") ∧
      (Infra.monolithicCrudLambda ip).timeoutSeconds = 30 ∧
      ("INFLUXDB_TOKEN", "my-super-secret-auth-token") ∈
        (Infra.monolithicCrudLambda ip).environment := by
  refine ⟨rfl, rfl, rfl, rfl, rfl, ?_⟩
  simp [Infra.monolithicCrudLambda]
